import Mathlib

/-
Shallow embedding of src/server.js (BackChat GraphQL chat server).

The subscription layer of the source hand-rolls an async iterator inside the
resolver Subscription.messageAdded.subscribe (lines 97-143).  Each call to
next() (lines 105-134) allocates a fresh closure (resolveNext, value), builds a
fresh listener (lines 116-122) and registers it with the process-wide PubSub
bus (line 124).  The return() method (lines 135-137) resolves a fresh promise
with done and touches neither the bus nor any pending pull.  The bus itself is
the graphql-subscriptions PubSub instance of line 13 (an external library):
its delivery behaviour is modelled from the spec, section 4.1.

The mutation sendMessage (lines 78-93) appends a new message record to the
in-memory store (line 87) and then publishes it (line 90) under the topic
string built at line 89.  The Message.sender resolver is at lines 74-76.
-/

namespace BackChat

/-- Lines 16-19: the shape of an entry of the in-memory users store. -/
structure User where
  id : String
  username : String
deriving DecidableEq

/-- Lines 21-24: the shape of an entry of the in-memory channels store. -/
structure Channel where
  id : String
  name : String
deriving DecidableEq

/-- Lines 79-85: a message record as built by sendMessage (also the Message
type of the schema, lines 40-46, with sender kept as the raw senderId). -/
structure Message where
  id : String
  content : String
  createdAt : String
  senderId : String
  channelId : String
deriving DecidableEq

/-- Lines 16-19: the users store at process start. -/
def users : List User := [⟨"1", "user1"⟩, ⟨"2", "user2"⟩]

/-- Lines 21-24: the channels store at process start. -/
def channels : List Channel := [⟨"1", "general"⟩, ⟨"2", "random"⟩]

/-- Lines 74-76: the Message.sender resolver,
users.find(user => user.id === message.senderId).
A none result models the JavaScript undefined that find yields on a miss. -/
def senderResolver (us : List User) (m : Message) : Option User :=
  us.find? (fun u => u.id == m.senderId)

/-- Line 89: the topic string built in the sendMessage mutation,
the template literal MESSAGE_ADDED_ followed by channelId. -/
def sendMessageTopic (channelId : String) : String :=
  "MESSAGE_ADDED_" ++ channelId

/-- Line 98: the topic string built in the Subscription.messageAdded.subscribe
resolver, the template literal MESSAGE_ADDED_ followed by channelId. -/
def subscribeTopic (channelId : String) : String :=
  "MESSAGE_ADDED_" ++ channelId

/-- One call to next() (lines 105-134) allocates a fresh closure with its own
resolveNext (line 113) and value (line 114) variables and registers a fresh
listener (lines 116-124) with the bus.  The field resolveNext records whether
the stored resolve callback is non-null, i.e. whether the promise of this pull
is still pending; result records the event this pull was resolved with, if
any (the listener only ever resolves a pull with value and done false). -/
structure PullSt (α : Type) where
  topic : String
  value : Option α
  resolveNext : Bool
  result : Option α
deriving DecidableEq

/-- Lines 116-122: the listener body.  It unconditionally stores the event
into value and, when a resolve callback is stored, resolves the pull with the
event and nulls the callback. -/
def listenerStep {α : Type} (e : α) (p : PullSt α) : PullSt α :=
  if p.resolveNext then
    { p with value := some e, resolveNext := false, result := some e }
  else
    { p with value := some e }

/-- Lines 105-133: the body of one next() call.  The iterator variable
(line 100) is never assigned, so the check at line 107 never fires; the
listeners array (line 111) is only ever written.  A fresh listener is
registered with the bus (line 124); at line 127 the value variable of the
fresh closure is still unset, because the promise executor runs synchronously
and no publish can interleave, hence the else branch stores the resolve
callback (line 131). -/
def nextPull (α : Type) (t : String) : PullSt α :=
  let value : Option α := none
  if value.isSome then
    { topic := t, value := none, resolveNext := false, result := value }
  else
    { topic := t, value := value, resolveNext := true, result := none }

/-- Modelled from the spec: the graphql-subscriptions PubSub bus of line 13 is
an external library; per spec section 4.1, publish delivers the payload to
every listener currently registered for the topic, in registration order.  The
registered listeners are exactly the per-pull listeners of line 124, kept in
registration order, so publish runs the listener body on every pull whose
registration topic matches. -/
def publishPulls {α : Type} (t : String) (e : α) (pulls : List (PullSt α)) :
    List (PullSt α) :=
  pulls.map (fun p => if p.topic == t then listenerStep e p else p)

/-- The externally driven operations on the subscription layer.  subscribe
opens a session (lines 97-143: builds the iterator object, registers nothing
with the bus); next is one pull (lines 105-134); publish is pubsub.publish
(line 90, bus behaviour per spec section 4.1); close is the iterator method
return() (lines 135-137: resolves a fresh promise with done true, touching
neither the bus nor any pending pull).  A session carries no state beyond its
topic string, so a session is identified with its topic. -/
inductive Op (α : Type) where
  | subscribe (topic : String)
  | next (topic : String)
  | publish (topic : String) (e : α)
  | close (topic : String)
deriving DecidableEq

/-- The process-wide subscription state: every pull closure ever created, in
the order their listeners were registered with the bus (line 124).  No
operation ever removes a registration. -/
structure ServerSt (α : Type) where
  pulls : List (PullSt α)
deriving DecidableEq

/-- The empty state at process start: no pull has been made, no listener is
registered. -/
def initSt (α : Type) : ServerSt α := ⟨[]⟩

/-- One operation of the subscription layer, as the source executes it. -/
def step {α : Type} (st : ServerSt α) : Op α → ServerSt α
  | .subscribe _ => st
  | .next t => ⟨st.pulls ++ [nextPull α t]⟩
  | .publish t e => ⟨publishPulls t e st.pulls⟩
  | .close _ => st

/-- Run a trace of operations from the start state. -/
def run {α : Type} (ops : List (Op α)) : ServerSt α :=
  ops.foldl step (initSt α)

/-- The events published to topic t over a trace, in call order. -/
def publishedTo {α : Type} (t : String) (ops : List (Op α)) : List α :=
  ops.filterMap (fun op => match op with
    | .publish t2 e => if t2 == t then some e else none
    | _ => none)

/-- The events actually delivered to the consumer of topic t: the resolutions
of next() promises, in the order the pulls were made. -/
def deliveredTo {α : Type} (t : String) (st : ServerSt α) : List α :=
  (st.pulls.filter (fun p => p.topic == t)).filterMap (fun p => p.result)

/-- Line 90: the payload object handed to pubsub.publish wraps the new record
in a messageAdded field. -/
structure Payload where
  messageAdded : Message
deriving DecidableEq

/-- Whole-application state: the in-memory stores (lines 16-26) together with
the subscription layer. -/
structure AppSt where
  users : List User
  channels : List Channel
  messages : List Message
  pulls : List (PullSt Payload)
deriving DecidableEq

/-- Lines 16-26: the stores at process start; messages starts empty. -/
def initApp : AppSt := ⟨users, channels, [], []⟩

/-- Lines 78-93: the sendMessage mutation.  The parameter now stands for the
value of new Date().toISOString() at line 82.  The new record is pushed onto
the messages store (line 87), then published under the line-89 topic with the
line-90 payload, and finally returned to the caller (line 92). -/
def sendMessage (st : AppSt) (now content senderId channelId : String) :
    Message × AppSt :=
  let newMessage : Message :=
    { id := toString (st.messages.length + 1), content := content,
      createdAt := now, senderId := senderId, channelId := channelId }
  let pushed : AppSt := { st with messages := st.messages ++ [newMessage] }
  (newMessage,
    { pushed with
        pulls := publishPulls (sendMessageTopic channelId) ⟨newMessage⟩
          pushed.pulls })

/-
Helper lemmas shared by the claim theorems below.
-/

/-- The listener body never changes which topic a pull is registered for. -/
theorem listenerStep_topic {α : Type} (e : α) (p : PullSt α) :
    (listenerStep e p).topic = p.topic := by
  unfold listenerStep
  split <;> rfl

/-- The closure allocated by next() starts with no stored event, a stored
resolve callback, and an unresolved promise. -/
theorem nextPull_eq (α : Type) (t : String) :
    nextPull α t = ⟨t, none, true, none⟩ := rfl

/-- Appending a fixed string on the left is injective. -/
theorem string_append_left_cancel (a b c : String) : a ++ b = a ++ c ↔ b = c := by
  constructor
  · intro h
    have h2 : a.data ++ b.data = a.data ++ c.data := by
      have h3 := congrArg String.data h
      simpa using h3
    exact String.ext (List.append_cancel_left h2)
  · intro h
    rw [h]

/-- A publish changes the state of pulls but neither adds nor removes a
registration: the number of listeners registered for any topic is unchanged. -/
theorem publishPulls_filter_length {α : Type} (t t2 : String) (e : α)
    (l : List (PullSt α)) :
    ((publishPulls t2 e l).filter (fun p => p.topic == t)).length =
      (l.filter (fun p => p.topic == t)).length := by
  induction l with
  | nil => rfl
  | cons a l ih =>
      have hfa : ((if a.topic == t2 then listenerStep e a else a).topic == t) =
          (a.topic == t) := by
        split
        · rw [listenerStep_topic]
        · rfl
      simp only [publishPulls] at ih ⊢
      rw [List.map_cons, List.filter_cons, List.filter_cons, hfa]
      cases hb : (a.topic == t)
      · rw [if_neg (by simp [hb]), if_neg (by simp [hb])]
        exact ih
      · rw [if_pos (by simp [hb]), List.length_cons, ih,
          if_pos (by simp [hb]), List.length_cons]

/-
Claim theorems.
-/

/-- Trace for claim C1: session open on channel 1 for the whole trace; event 1
is published while no pull is pending, then a pull is made, then event 2 is
published. -/
def c1trace : List (Op Nat) :=
  [Op.subscribe "MESSAGE_ADDED_1", Op.publish "MESSAGE_ADDED_1" 1,
   Op.next "MESSAGE_ADDED_1", Op.publish "MESSAGE_ADDED_1" 2]

/-- C1: refuted on the code.  The claim says the events returned by successive
next() calls are exactly the publishes made while the session was open, with
no gaps.  On this trace both publishes happen while the session is open, yet
the consumer only ever receives event 2: event 1, published while no pull was
pending, is dropped, because next() installs a fresh listener per call and
ignores everything published earlier, and there is no queue. -/
theorem delivered_misses_published :
    publishedTo "MESSAGE_ADDED_1" c1trace = [1, 2] ∧
    deliveredTo "MESSAGE_ADDED_1" (run c1trace) = [2] ∧
    deliveredTo "MESSAGE_ADDED_1" (run c1trace) ≠
      publishedTo "MESSAGE_ADDED_1" c1trace := by
  refine ⟨by decide, by decide, by decide⟩

/-- Trace for claim C2: a session is opened, then next() is called twice
(serially: the first pull resolves before the second is made would need a
publish in between, but registration counts are the same either way). -/
def c2trace : List (Op Nat) :=
  [Op.subscribe "MESSAGE_ADDED_1", Op.next "MESSAGE_ADDED_1",
   Op.next "MESSAGE_ADDED_1"]

/-- C2: refuted on the code.  The claim says the listener is installed once at
open time and next() never registers a new one.  In the code, opening the
session (the subscribe resolver, lines 97-143) registers no listener at all,
and each of the two next() calls registers one more fresh listener with the
bus (line 124), so after two pulls two listeners are registered. -/
theorem listener_per_pull_not_per_session :
    (run ([Op.subscribe "MESSAGE_ADDED_1"] : List (Op Nat))).pulls.length = 0 ∧
    (run c2trace).pulls.length = 2 := by
  refine ⟨by decide, by decide⟩

/-- Trace for claim C3: a pull is made and is pending, then the iterator is
closed via return(). -/
def c3trace : List (Op Nat) :=
  [Op.subscribe "MESSAGE_ADDED_1", Op.next "MESSAGE_ADDED_1",
   Op.close "MESSAGE_ADDED_1"]

/-- C3: refuted on the code.  The claim says closing with a pending next()
resolves that call to end-of-sequence and a later publish has no observable
effect.  In the code, return() (lines 135-137) resolves only a fresh promise
of its own: after the close the pull is still pending (resolveNext true,
result none) and its listener is still registered, and a subsequent publish
of event 7 observably resolves the supposedly-closed pull with that event. -/
theorem close_leaves_pull_pending_and_listener_registered :
    (run c3trace).pulls =
      [{ topic := "MESSAGE_ADDED_1", value := none, resolveNext := true,
         result := none }] ∧
    (run (c3trace ++ [Op.publish "MESSAGE_ADDED_1" 7])).pulls =
      [{ topic := "MESSAGE_ADDED_1", value := some 7, resolveNext := false,
         result := some 7 }] := by
  refine ⟨by decide, by decide⟩

/-- C4: confirmed.  After any prior trace, if next() is called (its closure
starts empty, so the pull suspends) and publish for the same topic is then
called exactly once, the pull just created is resolved with that event and
not with end-of-sequence: the freshly registered listener finds the stored
resolve callback and fires it with the event. -/
theorem next_then_publish_resolves (α : Type) (ops : List (Op α)) (t : String)
    (e : α) :
    (run (ops ++ [Op.next t, Op.publish t e])).pulls.getLast? =
      some { topic := t, value := some e, resolveNext := false,
             result := some e } := by
  have h : run (ops ++ [Op.next t, Op.publish t e]) =
      step (step (run ops) (Op.next t)) (Op.publish t e) := by
    simp [run, List.foldl_append]
  rw [h]
  simp [step, publishPulls, nextPull, listenerStep, List.getLast?_concat]

/-- Trace for claim C5: three events are published with no pull pending, then
next() is called three times. -/
def c5trace : List (Op Nat) :=
  [Op.subscribe "MESSAGE_ADDED_1",
   Op.publish "MESSAGE_ADDED_1" 1, Op.publish "MESSAGE_ADDED_1" 2,
   Op.publish "MESSAGE_ADDED_1" 3,
   Op.next "MESSAGE_ADDED_1", Op.next "MESSAGE_ADDED_1",
   Op.next "MESSAGE_ADDED_1"]

/-- C5: refuted on the code.  The claim says that after k publishes with no
pending pull, the next k next() calls return those events in order.  In the
code there is no queue at all: the three publishes find no registered
listener and are dropped, and the three subsequent next() calls each register
a fresh listener and suspend forever; nothing is ever delivered. -/
theorem buffered_events_never_returned :
    publishedTo "MESSAGE_ADDED_1" c5trace = [1, 2, 3] ∧
    deliveredTo "MESSAGE_ADDED_1" (run c5trace) = [] ∧
    (run c5trace).pulls.map (fun p => p.resolveNext) = [true, true, true] := by
  refine ⟨by decide, by decide, by decide⟩

/-- Trace for claim C6: next() is called twice on the one session without the
first pull having resolved. -/
def c6trace : List (Op Nat) :=
  [Op.subscribe "MESSAGE_ADDED_1", Op.next "MESSAGE_ADDED_1",
   Op.next "MESSAGE_ADDED_1"]

/-- C6: refuted on the code.  The claim says at most one pull is ever
outstanding per session.  Nothing in next() checks for an existing pending
pull: after two next() calls both pulls are simultaneously outstanding, and a
single publish of event 5 then resolves both of them with the same event, a
double delivery to the one session. -/
theorem two_pulls_outstanding_and_double_delivery :
    ((run c6trace).pulls.filter (fun p => p.resolveNext)).length = 2 ∧
    deliveredTo "MESSAGE_ADDED_1"
      (run (c6trace ++ [Op.publish "MESSAGE_ADDED_1" 5])) = [5, 5] := by
  refine ⟨by decide, by decide⟩

/-- C7: confirmed.  The mutation (line 89) and the subscription resolver
(line 98) build the same topic string for the same channelId; the topic
determines the channelId uniquely (the fixed prefix makes the map injective);
and a publish under the mutation topic runs the listener body exactly on the
pulls whose registration topic is the subscription topic of the same channel,
so a published message reaches exactly the subscribers of that channel. -/
theorem topics_agree_and_route (c c2 : String) (e : Payload)
    (st : ServerSt Payload) :
    sendMessageTopic c = subscribeTopic c ∧
    (sendMessageTopic c = subscribeTopic c2 ↔ c = c2) ∧
    (step st (Op.publish (sendMessageTopic c) e)).pulls =
      st.pulls.map
        (fun p => if p.topic == subscribeTopic c then listenerStep e p else p) := by
  refine ⟨rfl, ?_, rfl⟩
  unfold sendMessageTopic subscribeTopic
  exact string_append_left_cancel "MESSAGE_ADDED_" c c2

/-- C8: confirmed.  sendMessage returns exactly the record it freshly builds,
the messages store afterwards is the old store with that record appended (the
push at line 87 precedes the publish at line 90, which never touches the
store), and the publish it performs carries that same record as the
messageAdded payload under the line-89 topic. -/
theorem sendMessage_appends_publishes_returns (st : AppSt)
    (now content senderId channelId : String) :
    (sendMessage st now content senderId channelId).1 =
      { id := toString (st.messages.length + 1), content := content,
        createdAt := now, senderId := senderId, channelId := channelId } ∧
    (sendMessage st now content senderId channelId).2.messages =
      st.messages ++ [(sendMessage st now content senderId channelId).1] ∧
    (sendMessage st now content senderId channelId).2.pulls =
      publishPulls (sendMessageTopic channelId)
        ⟨(sendMessage st now content senderId channelId).1⟩ st.pulls := by
  refine ⟨rfl, rfl, rfl⟩

/-- C9: confirmed.  Per operation of the subscription layer, the number of
listeners registered with the bus for any topic grows by exactly one on a
next() call for that topic and is unchanged by every other operation:
subscribe registers nothing, publish only mutates the closures of already
registered listeners, and close (the return() method) removes nothing, so
registrations grow one per pull and never shrink over the life of the
process. -/
theorem listeners_grow_per_next (α : Type) (st : ServerSt α) (op : Op α)
    (t : String) :
    ((step st op).pulls.filter (fun p => p.topic == t)).length =
      (st.pulls.filter (fun p => p.topic == t)).length +
        (match op with
          | Op.next t2 => if t2 == t then 1 else 0
          | _ => 0) := by
  cases op with
  | subscribe t2 => simp [step]
  | close t2 => simp [step]
  | publish t2 e => simpa [step] using publishPulls_filter_length t t2 e st.pulls
  | next t2 =>
      simp only [step, List.filter_append, List.length_append, nextPull_eq]
      cases hb : (t2 == t) <;> simp [List.filter_cons, hb]

/-- C10: confirmed.  sendMessage validates nothing: for every content,
senderId and channelId it succeeds and appends its record to the store; and
when the senderId matches no user in the users store, the Message.sender
resolver applied to the new record yields none (the undefined of
Array.prototype.find). -/
theorem sendMessage_no_validation (st : AppSt)
    (now content senderId channelId : String)
    (h : ∀ u ∈ st.users, u.id ≠ senderId) :
    (sendMessage st now content senderId channelId).2.messages =
      st.messages ++ [(sendMessage st now content senderId channelId).1] ∧
    senderResolver st.users (sendMessage st now content senderId channelId).1 =
      none := by
  refine ⟨rfl, ?_⟩
  unfold senderResolver
  rw [List.find?_eq_none]
  intro u hu
  simpa using h u hu

/-- Witness for C10 at the initial stores: senderId 999 names no user of the
initial users store, sendMessage still appends its record, and the sender
resolver yields none on the result. -/
theorem sendMessage_no_validation_witness :
    (∀ u ∈ initApp.users, u.id ≠ "999") ∧
    ((sendMessage initApp "2026-10-11T00:00:00.000Z" "hi" "999" "42").2.messages =
        initApp.messages ++
          [(sendMessage initApp "2026-10-11T00:00:00.000Z" "hi" "999" "42").1] ∧
      senderResolver initApp.users
        (sendMessage initApp "2026-10-11T00:00:00.000Z" "hi" "999" "42").1 =
        none) :=
  ⟨by decide,
    sendMessage_no_validation initApp "2026-10-11T00:00:00.000Z" "hi" "999" "42"
      (by decide)⟩

end BackChat
